import Mathlib

/-!
Verification of the AI-call resilience and itinerary-fallback core of the
`journey` backend: the retry/backoff wrapper around the external chat API
(`safe_perplexity_call`), the itinerary request with validation-driven
fallback (`plan_trip`), the deterministic fallback builder, the pydantic
request validation (`PlanTripRequest`), and the conversational slot-filling
state machine (`chat_endpoint`).

Modelling conventions:
* Calendar dates are abstract day numbers (`Int`); `timedelta(days=i)` is
  addition, `(e - s).days` is subtraction.
* The external API is a collaborator: each embedded function takes the
  outcome(s) of its external call(s) as an explicit argument.
* Python exceptions become `Except` / explicit outcome types;
  `HTTPException(status_code, detail)` becomes the `HttpError` structure.
* `str.strip()` is modelled by `pyStrip`, `str.lower()` by `pyToLower`,
  and Python `len` on strings by `String.length` (counting characters /
  code points, as Python does).
-/

namespace Journey

/-- Python `str.strip()`: drop leading and trailing whitespace characters.
Implemented over the character list so it evaluates by kernel reduction. -/
def pyStrip (s : String) : String :=
  ⟨((s.data.dropWhile Char.isWhitespace).reverse.dropWhile Char.isWhitespace).reverse⟩

/-- Python `str.lower()` (ASCII case folding suffices for the uses here). -/
def pyToLower (s : String) : String :=
  ⟨s.data.map Char.toLower⟩

/-- Python `HTTPException(status_code=..., detail=...)`. -/
structure HttpError where
  status_code : Nat
  detail : String
  deriving Repr, DecidableEq

/-! ## Data model (`app/models/itinerary_models.py`) -/

/-- `PlanTripRequest` after pydantic validation: `city` is the
whitespace-stripped string (`str_strip_whitespace=True`). Dates are
abstract day numbers. -/
structure PlanTripRequest where
  city : String
  start_date : Int
  end_date : Int
  deriving Repr, DecidableEq

/-- `DayPlan`: one day of an itinerary. -/
structure DayPlan where
  day : Int
  date : Int
  summary : String
  activities : List String
  deriving Repr, DecidableEq

/-- `ItineraryResponse`: the itinerary payload. -/
structure ItineraryResponse where
  city : String
  start_date : Int
  end_date : Int
  days : List DayPlan
  deriving Repr, DecidableEq

/-- Pydantic validation of a `PlanTripRequest` from raw fields, mirroring
`itinerary_models.py`: strip whitespace from `city`
(`str_strip_whitespace=True`), check `min_length=2` / `max_length=80` on the
stripped value, then run `validate_dates`: reject `end_date < start_date`
and trips longer than 30 days. -/
def validatePlanTripRequest (city : String) (start_date end_date : Int) :
    Except String PlanTripRequest :=
  let c := pyStrip city
  if c.length < 2 then
    .error "String should have at least 2 characters"
  else if c.length > 80 then
    .error "String should have at most 80 characters"
  else if end_date < start_date then
    .error "end_date must be on or after start_date"
  else if end_date - start_date + 1 > 30 then
    .error "Trip length cannot exceed 30 days"
  else
    .ok ⟨c, start_date, end_date⟩

/-! ## JSON values and pydantic `model_validate`

`json.loads` yields a JSON document; pydantic then checks field presence
and types.  Date-typed fields are modelled as day numbers (`int` leaves),
matching the `Int` date model. -/

/-- A parsed JSON document (the output of a successful `json.loads`). -/
inductive JsonValue where
  | str (s : String)
  | int (n : Int)
  | arr (xs : List JsonValue)
  | obj (fields : List (String × JsonValue))

/-- Look up a field of a JSON object member list (first match). -/
def jsonGet : List (String × JsonValue) → String → Option JsonValue
  | [], _ => none
  | (k, v) :: rest, key => if k = key then some v else jsonGet rest key

/-- Read a JSON value as a string. -/
def asString : JsonValue → Option String
  | .str s => some s
  | _ => none

/-- Read a JSON value as an integer. -/
def asInt : JsonValue → Option Int
  | .int n => some n
  | _ => none

/-- Read a JSON value as a date (day number). -/
def asDate : JsonValue → Option Int
  | .int n => some n
  | _ => none

/-- Read a JSON value as a list of strings. -/
def asStringList : JsonValue → Option (List String)
  | .arr xs => xs.mapM asString
  | _ => none

/-- Pydantic validation of one `DayPlan` object: field presence and types
only — the model declares no extra validators. -/
def dayPlanValidate (j : JsonValue) : Option DayPlan :=
  match j with
  | .obj fields => do
      let day ← jsonGet fields "day" >>= asInt
      let d ← jsonGet fields "date" >>= asDate
      let summary ← jsonGet fields "summary" >>= asString
      let acts ← jsonGet fields "activities" >>= asStringList
      pure ⟨day, d, summary, acts⟩
  | _ => none

/-- Pydantic `ItineraryResponse.model_validate` on a parsed JSON document:
field presence and types only (`city`, `start_date`, `end_date`, `days`
with each element a valid `DayPlan`).  The models in
`itinerary_models.py` attach no validator to `DayPlan` or
`ItineraryResponse`, so no day-number or date invariant is checked. -/
def itineraryModelValidate (j : JsonValue) : Option ItineraryResponse :=
  match j with
  | .obj fields => do
      let city ← jsonGet fields "city" >>= asString
      let s ← jsonGet fields "start_date" >>= asDate
      let e ← jsonGet fields "end_date" >>= asDate
      let daysJson ← jsonGet fields "days"
      match daysJson with
      | .arr xs => do
          let days ← xs.mapM dayPlanValidate
          pure ⟨city, s, e, days⟩
      | _ => none
  | _ => none

/-! ## Fallback itinerary and `plan_trip` (`app/main.py`) -/

/-- The fixed four-element activity-suggestion pool from `plan_trip`. -/
def suggestions (city : String) : List String :=
  [ "Explore iconic landmarks in " ++ city
  , "Sample local cuisine at a recommended spot"
  , "Visit a museum, gallery, or cultural center"
  , "Walk through scenic neighborhoods or parks" ]

/-- One fallback `DayPlan` for zero-based day index `i`, as built inside the
fallback loop of `plan_trip`: `date = start_date + i`,
`activities = suggestions[:3]` for even `i` and `suggestions[1:]` for odd. -/
def fallbackDay (req : PlanTripRequest) (i : Nat) : DayPlan :=
  { day := (i : Int) + 1
  , date := req.start_date + (i : Int)
  , summary := "Discover highlights of " ++ req.city
  , activities :=
      if i % 2 = 0 then (suggestions req.city).take 3
      else (suggestions req.city).drop 1 }

/-- The deterministic fallback itinerary built in the `except` branch of
`plan_trip`: `total_days = (end_date - start_date).days + 1` days, day `i`
(zero-based) dated `start_date + i`. -/
def buildFallback (req : PlanTripRequest) : ItineraryResponse :=
  let totalDays := (req.end_date - req.start_date).toNat + 1
  { city := req.city
  , start_date := req.start_date
  , end_date := req.end_date
  , days := (List.range totalDays).map (fallbackDay req) }

/-- Outcome of the `safe_itinerary_call` + `json.loads` stage of
`plan_trip`, as seen by the surrounding `try`/`except`:
the call raised `HTTPException`, or the returned text failed JSON parsing
(`json.JSONDecodeError`), or it parsed to the given document. -/
inductive AiOutcome where
  | callFailed
  | notJson
  | parsed (j : JsonValue)

/-- The `plan_trip` handler body (`app/main.py`), given the outcome of the
external call and JSON parse: on success of call, parse and
`model_validate`, return the validated itinerary unchanged; any
`HTTPException` / `JSONDecodeError` / `ValueError` (validation failure)
lands in the `except` branch, which builds and returns the fallback. -/
def plan_trip (req : PlanTripRequest) (outcome : AiOutcome) : ItineraryResponse :=
  match outcome with
  | .callFailed => buildFallback req
  | .notJson => buildFallback req
  | .parsed j =>
      match itineraryModelValidate j with
      | some itinerary => itinerary
      | none => buildFallback req

/-- The `/plan_trip` endpoint: FastAPI validates the request body into a
`PlanTripRequest` before the handler body (and hence the external call)
runs; a validation failure is returned as a client error. -/
def plan_trip_endpoint (city : String) (start_date end_date : Int)
    (outcome : AiOutcome) : Except String ItineraryResponse :=
  match validatePlanTripRequest city start_date end_date with
  | .error m => .error m
  | .ok req => .ok (plan_trip req outcome)

/-! ## ResilientCaller: `safe_perplexity_call`
(`app/services/perplexity_service.py`) -/

/-- Bool test that `needle` occurs as a contiguous substring of the
character list, modelling Python's `needle in hay`. -/
def charsInfixOf (needle : List Char) : List Char → Bool
  | [] => decide (needle = [])
  | c :: rest => needle.isPrefixOf (c :: rest) || charsInfixOf needle rest

/-- Python `needle in hay` on strings. -/
def strContains (hay needle : String) : Bool :=
  charsInfixOf needle.data hay.data

/-- The rate-limit classification of `safe_perplexity_call`:
`"429" in error_str or "rate limit" in error_str.lower()`. -/
def isRateLimitError (msg : String) : Bool :=
  strContains msg "429" || strContains (pyToLower msg) "rate limit"

/-- Outcome of one attempt of the external chat-completion call:
either it returns and `choices[0].message.content` is `content`, or it
raises an exception whose `str(e)` is `msg`. -/
inductive AttemptResult where
  | ok (content : String)
  | err (msg : String)

/-- `True` when the attempt raised an error classified as rate-limiting. -/
def isRateLimitedAttempt : AttemptResult → Bool
  | .ok _ => false
  | .err msg => isRateLimitError msg

/-- Detail string of the 429 `HTTPException`. -/
def rateLimitDetail : String := "API rate limit exceeded. Please try again later."

/-- Detail string of the 500 `HTTPException` raised on the final attempt. -/
def unavailableDetail : String :=
  "External API service temporarily unavailable. Please try again later."

/-- Detail string of the unreachable guard after the loop. -/
def unexpectedDetail : String := "Unexpected error in API service"

/-- The `for attempt in range(retries)` loop of `safe_perplexity_call`,
at loop variable `attempt` with `remaining` iterations left
(`attempt + remaining = retries` in every reachable call).  `outcomes i`
is the result of the external call on attempt `i` (zero-based).  Returns
the Python result (returned string or raised `HTTPException`) paired with
the chronological list of `time.sleep` durations performed. -/
def spcAux (outcomes : Nat → AttemptResult) (retries delay : Nat) :
    Nat → Nat → Except HttpError String × List Nat
  | _, 0 => (.error ⟨500, unexpectedDetail⟩, [])
  | attempt, remaining + 1 =>
    match outcomes attempt with
    | .ok content => (.ok content, [])
    | .err msg =>
      if isRateLimitError msg then
        if attempt < retries - 1 then
          let wait := delay * 2 ^ attempt
          let rest := spcAux outcomes retries delay (attempt + 1) remaining
          (rest.1, wait :: rest.2)
        else
          (.error ⟨429, rateLimitDetail⟩, [])
      else
        if attempt = retries - 1 then
          (.error ⟨500, unavailableDetail⟩, [])
        else
          spcAux outcomes retries delay (attempt + 1) remaining

/-- `safe_perplexity_call` given the per-attempt outcomes of the external
call: runs the retry loop from attempt 0. The Python signature defaults
are `retries = 3`, `delay = 2`. -/
def safe_perplexity_call (outcomes : Nat → AttemptResult)
    (retries delay : Nat) : Except HttpError String × List Nat :=
  spcAux outcomes retries delay 0 retries

/-! ## The plain `/chat` endpoint (`app/main.py`) -/

/-- The `/chat` handler body: `query` is the (optional) request query and
`callOutcome` the result `safe_perplexity_call(q)` would produce.  An
empty or whitespace-only query short-circuits to reply `""` without the
external call; otherwise the call's reply is returned, and a raised
`HTTPException` is re-raised (`safe_perplexity_call` raises only
`HTTPException`, so the generic 500 handler is not exercised). -/
def chat (query : Option String) (callOutcome : Except HttpError String) :
    Except HttpError String :=
  let q := pyStrip (query.getD "")
  if q = "" then .ok ""
  else
    match callOutcome with
    | .ok reply => .ok reply
    | .error e => .error e

/-! ## Conversational `/chat` endpoint (`backend/app/main.py`) -/

/-- Result of evaluating a Python expression: a value, or a raised
exception with its message. -/
inductive PyOutcome (α : Type) where
  | ok (val : α)
  | exn (msg : String)

/-- Models `await expr` where `expr` evaluated to a plain `str`:
`safe_perplexity_call` is a synchronous `def` returning `str`, so if the
call itself raised, that exception propagates, and if it returned a
string, awaiting a non-awaitable raises `TypeError`. -/
def awaitSyncCall : PyOutcome String → PyOutcome String
  | .exn m => .exn m
  | .ok _ => .exn "object str can't be used in 'await' expression"

/-- The fixed ordered slot/question list `CONVERSATION_QUESTIONS`. -/
def CONVERSATION_QUESTIONS : List (String × String) :=
  [ ("day", "Which day are you planning your tour?")
  , ("location", "Which city/country/region do you want to visit?")
  , ("date", "What are your preferred travel dates?")
  , ("travel_style", "Are you looking for luxury, mid-range, or budget travel?")
  , ("budget", "Approximate budget per person (including accommodation, food, transport, activities)?")
  , ("accommodation", "Do you prefer hotels, hostels, resorts, or homestays?")
  , ("activities", "What kind of experiences are you interested in? (nature, adventure, cultural experiences, shopping, nightlife)")
  , ("transportation", "How do you prefer to travel locally? (rental car, public transport, walking, bike)")
  , ("dining", "Do you have any dietary restrictions or food interests?")
  , ("special_requests", "Any special requests, accessibility needs, or events you want included?") ]

/-- The `ChatInput` pydantic model: every field optional. -/
structure ChatInput where
  user_id : Option String
  day : Option String
  location : Option String
  date : Option String
  travel_style : Option String
  budget : Option String
  accommodation : Option String
  activities : Option String
  transportation : Option String
  dining : Option String
  special_requests : Option String
  query : Option String

/-- `getattr(chat_input, key, None)` for the ten slot keys. -/
def getSlot (ci : ChatInput) : String → Option String
  | "day" => ci.day
  | "location" => ci.location
  | "date" => ci.date
  | "travel_style" => ci.travel_style
  | "budget" => ci.budget
  | "accommodation" => ci.accommodation
  | "activities" => ci.activities
  | "transportation" => ci.transportation
  | "dining" => ci.dining
  | "special_requests" => ci.special_requests
  | _ => none

/-- A user's slot map: a Python dict as an insertion-ordered
association list. -/
abbrev Slots := List (String × String)

/-- Dict lookup `state.get(key)` / `key in state`. -/
def slotsGet : Slots → String → Option String
  | [], _ => none
  | (k, v) :: rest, key => if k = key then some v else slotsGet rest key

/-- Dict assignment `state[key] = val`: overwrite in place if the key is
present, otherwise append (Python dicts keep insertion order). -/
def slotsSet : Slots → String → String → Slots
  | [], key, val => [(key, val)]
  | (k, v) :: rest, key, val =>
      if k = key then (k, val) :: rest else (k, v) :: slotsSet rest key val

/-- The update loop of `chat_endpoint`: for each slot key in the fixed
order, if the input supplies a non-null value, write it into the state. -/
def applyUpdates (ci : ChatInput) (s : Slots) : Slots :=
  CONVERSATION_QUESTIONS.foldl
    (fun acc kq =>
      match getSlot ci kq.1 with
      | some v => slotsSet acc kq.1 v
      | none => acc)
    s

/-- The question-scan loop: the question of the first slot key (in fixed
order) absent from the state, or `none` when every slot is present. -/
def firstUnanswered (s : Slots) : Option String :=
  (CONVERSATION_QUESTIONS.find? fun kq => (slotsGet s kq.1).isNone).map Prod.snd

/-- The module-level `chat_state` dict, keyed by user id. -/
abbrev ChatState := String → Option Slots

/-- `chat_state[u] = s`. -/
def setUser (cs : ChatState) (u : String) (s : Slots) : ChatState :=
  fun x => if x = u then some s else cs x

/-- `chat_state.pop(u, None)`. -/
def delUser (cs : ChatState) (u : String) : ChatState :=
  fun x => if x = u then none else cs x

/-- `chat_input.user_id or "default_user"`: `None` and the falsy empty
string both fall back to `"default_user"`. -/
def effectiveUserId (ci : ChatInput) : String :=
  match ci.user_id with
  | some u => if u = "" then "default_user" else u
  | none => "default_user"

/-- The fixed apology string substituted when the final AI call fails. -/
def apologyText : String := "Sorry, I couldn't generate the itinerary at this time."

/-- The conversational `chat_endpoint` handler: merge supplied slot values
into the user's state, return the first unanswered question if any slot
is missing; otherwise build the final prompt, evaluate
`await safe_perplexity_call(prompt)` (whose call outcome is the `call`
argument), substitute the apology on any exception, delete the user's
state, and return the final text.  Returns the new `chat_state` paired
with the response string. -/
def chat_endpoint (cs : ChatState) (ci : ChatInput) (call : PyOutcome String) :
    ChatState × String :=
  let uid := effectiveUserId ci
  let slots1 := applyUpdates ci ((cs uid).getD [])
  match firstUnanswered slots1 with
  | some q => (setUser cs uid slots1, q)
  | none =>
      let response :=
        match awaitSyncCall call with
        | .ok s => s
        | .exn _ => apologyText
      (delUser cs uid, response)

/-! ## Helper lemmas -/

/-- Inversion of a successful request validation. -/
theorem validatePlanTripRequest_ok_inv {city : String} {s e : Int}
    {req : PlanTripRequest}
    (h : validatePlanTripRequest city s e = .ok req) :
    req = ⟨pyStrip city, s, e⟩ ∧ s ≤ e ∧ e - s + 1 ≤ 30 ∧
      2 ≤ (pyStrip city).length ∧ (pyStrip city).length ≤ 80 := by
  simp only [validatePlanTripRequest] at h
  split_ifs at h with h1 h2 h3 h4 <;> simp_all

/-- The fallback day list is a map over `List.range`. -/
theorem buildFallback_days (req : PlanTripRequest) :
    (buildFallback req).days =
      (List.range ((req.end_date - req.start_date).toNat + 1)).map (fallbackDay req) := rfl

/-! ## C1 -/

/-- C1: for every valid `TripRequest`, when the itinerary call raises, or
its text is not valid JSON, or schema validation of the parsed JSON fails,
`plan_trip` does not propagate the failure: it returns the deterministic
fallback itinerary, whose day count is `(end_date - start_date).days + 1`,
whose day numbers are exactly `1..N` in order, and whose dates are
`start_date..end_date` in order (`date of day k = start_date + (k-1)`). -/
theorem plan_trip_failure_returns_fallback
    (city : String) (s e : Int) (req : PlanTripRequest)
    (hreq : validatePlanTripRequest city s e = .ok req)
    (o : AiOutcome)
    (hfail : o = .callFailed ∨ o = .notJson ∨
      ∃ j, o = .parsed j ∧ itineraryModelValidate j = none) :
    plan_trip req o = buildFallback req ∧
    ((buildFallback req).days.length : Int) = req.end_date - req.start_date + 1 ∧
    (buildFallback req).days.map DayPlan.day =
      (List.range ((req.end_date - req.start_date).toNat + 1)).map (fun k : Nat => (k : Int) + 1) ∧
    (buildFallback req).days.map DayPlan.date =
      (List.range ((req.end_date - req.start_date).toNat + 1)).map
        (fun k : Nat => req.start_date + (k : Int)) := by
  obtain ⟨hr, hse, -, -, -⟩ := validatePlanTripRequest_ok_inv hreq
  refine ⟨?_, ?_, ?_, ?_⟩
  · rcases hfail with h | h | ⟨j, hj, hv⟩ <;> simp [plan_trip, *]
  · have : req.start_date ≤ req.end_date := by rw [hr]; exact hse
    simp only [buildFallback_days, List.length_map, List.length_range]
    omega
  · simp only [buildFallback_days, List.map_map]; rfl
  · simp only [buildFallback_days, List.map_map]; rfl

/-- Witness for C1 at a concrete valid request and a failed call. -/
theorem plan_trip_failure_returns_fallback_witness :
    plan_trip ⟨"Paris", 0, 2⟩ .callFailed = buildFallback ⟨"Paris", 0, 2⟩ ∧
    ((buildFallback (⟨"Paris", 0, 2⟩ : PlanTripRequest)).days.length : Int) = 2 - 0 + 1 ∧
    (buildFallback (⟨"Paris", 0, 2⟩ : PlanTripRequest)).days.map DayPlan.day =
      (List.range (((2 : Int) - 0).toNat + 1)).map (fun k : Nat => (k : Int) + 1) ∧
    (buildFallback (⟨"Paris", 0, 2⟩ : PlanTripRequest)).days.map DayPlan.date =
      (List.range (((2 : Int) - 0).toNat + 1)).map (fun k : Nat => 0 + (k : Int)) :=
  plan_trip_failure_returns_fallback "Paris" 0 2 ⟨"Paris", 0, 2⟩ rfl
    .callFailed (Or.inl rfl)

/-! ## C2 -/

/-- A parsed JSON document that passes field-presence/type validation but
violates the `DayPlan` invariants (its single day has `day = 7` and a date
unrelated to `start_date`). -/
def badDaysJson : JsonValue :=
  .obj [ ("city", .str "Paris"), ("start_date", .int 0), ("end_date", .int 2)
       , ("days", .arr [ .obj [ ("day", .int 7), ("date", .int 5)
                              , ("summary", .str "x")
                              , ("activities", .arr [.str "a"]) ] ]) ]

/-- Counterexample to C2: the pydantic models check field presence/types
only — `plan_trip` returns a schema-typed itinerary that violates the
`DayPlan` invariants (day numbers contiguous from 1, date = start_date +
(day-1)) as-is instead of triggering the fallback. -/
theorem plan_trip_no_dayplan_invariant_check :
    validatePlanTripRequest "Paris" 0 2 = .ok ⟨"Paris", 0, 2⟩ ∧
    itineraryModelValidate badDaysJson = some ⟨"Paris", 0, 2, [⟨7, 5, "x", ["a"]⟩]⟩ ∧
    plan_trip ⟨"Paris", 0, 2⟩ (.parsed badDaysJson) = ⟨"Paris", 0, 2, [⟨7, 5, "x", ["a"]⟩]⟩ ∧
    plan_trip ⟨"Paris", 0, 2⟩ (.parsed badDaysJson) ≠ buildFallback ⟨"Paris", 0, 2⟩ := by
  exact ⟨rfl, rfl, rfl, by decide⟩

/-- C2 (amended): `plan_trip` validates the parsed JSON for field presence
and types only; any document passing that check is returned as-is (even
when it violates the `DayPlan` invariants), and a call failure, a JSON
parse failure, or a field/type validation failure triggers the fallback. -/
theorem plan_trip_returns_type_valid_output (req : PlanTripRequest) :
    (∀ j itin, itineraryModelValidate j = some itin →
        plan_trip req (.parsed j) = itin) ∧
    (∀ j, itineraryModelValidate j = none →
        plan_trip req (.parsed j) = buildFallback req) ∧
    plan_trip req .callFailed = buildFallback req ∧
    plan_trip req .notJson = buildFallback req := by
  refine ⟨?_, ?_, rfl, rfl⟩
  · intro j itin h; simp [plan_trip, h]
  · intro j h; simp [plan_trip, h]

/-- Witness for the amended C2 at concrete inputs. -/
theorem plan_trip_returns_type_valid_output_witness :
    plan_trip ⟨"Paris", 0, 2⟩ (.parsed badDaysJson) = ⟨"Paris", 0, 2, [⟨7, 5, "x", ["a"]⟩]⟩ ∧
    plan_trip ⟨"Paris", 0, 2⟩ .notJson = buildFallback ⟨"Paris", 0, 2⟩ :=
  ⟨(plan_trip_returns_type_valid_output ⟨"Paris", 0, 2⟩).1 badDaysJson _ rfl,
   (plan_trip_returns_type_valid_output ⟨"Paris", 0, 2⟩).2.2.2⟩

/-! ## C8 -/

/-- C8: each fallback day has summary `"Discover highlights of {city}"`,
and its activities alternate over the fixed four-element suggestion pool:
even zero-based index gets exactly the first three suggestions in pool
order, odd index exactly the last three in pool order. -/
theorem buildFallback_summary_and_alternation
    (city : String) (s e : Int) (req : PlanTripRequest)
    (hreq : validatePlanTripRequest city s e = .ok req)
    (k : Nat) (hk : k < (buildFallback req).days.length) :
    ((buildFallback req).days.get ⟨k, hk⟩).summary =
      "Discover highlights of " ++ req.city ∧
    ((buildFallback req).days.get ⟨k, hk⟩).activities =
      (if k % 2 = 0 then
        [ "Explore iconic landmarks in " ++ req.city
        , "Sample local cuisine at a recommended spot"
        , "Visit a museum, gallery, or cultural center" ]
      else
        [ "Sample local cuisine at a recommended spot"
        , "Visit a museum, gallery, or cultural center"
        , "Walk through scenic neighborhoods or parks" ]) := by
  have hget : (buildFallback req).days.get ⟨k, hk⟩ = fallbackDay req k := by
    simp [buildFallback_days, List.get_eq_getElem]
  rw [hget]
  by_cases h2 : k % 2 = 0 <;> simp [fallbackDay, suggestions, h2]

/-- Witness for C8: the first two consecutive days of a concrete fallback
itinerary, checked by exact list equality. -/
theorem buildFallback_summary_and_alternation_witness :
    (((buildFallback (⟨"Paris", 0, 2⟩ : PlanTripRequest)).days.get
        ⟨0, by decide⟩).activities =
      [ "Explore iconic landmarks in Paris"
      , "Sample local cuisine at a recommended spot"
      , "Visit a museum, gallery, or cultural center" ]) ∧
    (((buildFallback (⟨"Paris", 0, 2⟩ : PlanTripRequest)).days.get
        ⟨1, by decide⟩).activities =
      [ "Sample local cuisine at a recommended spot"
      , "Visit a museum, gallery, or cultural center"
      , "Walk through scenic neighborhoods or parks" ]) := by
  refine ⟨?_, ?_⟩
  · have h := buildFallback_summary_and_alternation "Paris" 0 2 ⟨"Paris", 0, 2⟩
      rfl 0 (by decide)
    simpa using h.2
  · have h := buildFallback_summary_and_alternation "Paris" 0 2 ⟨"Paris", 0, 2⟩
      rfl 1 (by decide)
    simpa using h.2

/-! ## C9 -/

/-- C9: request validation succeeds exactly when `start_date ≤ end_date`,
the trip is at most 30 days, and the stripped city has between 2 and 80
characters; when it fails, the endpoint rejects the request with the
validation error for every possible outcome of the external call — the
result does not depend on the call, so no external call is attempted. -/
theorem plan_trip_request_validation (city : String) (s e : Int) :
    ((∃ req, validatePlanTripRequest city s e = .ok req) ↔
      (s ≤ e ∧ e - s + 1 ≤ 30 ∧
        2 ≤ (pyStrip city).length ∧ (pyStrip city).length ≤ 80)) ∧
    (∀ m, validatePlanTripRequest city s e = .error m →
      ∀ o : AiOutcome, plan_trip_endpoint city s e o = .error m) := by
  constructor
  · simp only [validatePlanTripRequest]
    split_ifs with h1 h2 h3 h4 <;> simp <;> omega
  · intro m h o
    simp [plan_trip_endpoint, h]

/-- Witness for C9: a concrete passing request, and a concrete
date-reversed request rejected identically for two different call
outcomes. -/
theorem plan_trip_request_validation_witness :
    (∃ req, validatePlanTripRequest "Paris" 0 2 = .ok req) ∧
    plan_trip_endpoint "Paris" 2 0 .callFailed =
      .error "end_date must be on or after start_date" ∧
    plan_trip_endpoint "Paris" 2 0 .notJson =
      .error "end_date must be on or after start_date" :=
  ⟨(plan_trip_request_validation "Paris" 0 2).1.mpr (by decide),
   (plan_trip_request_validation "Paris" 2 0).2 _ rfl .callFailed,
   (plan_trip_request_validation "Paris" 2 0).2 _ rfl .notJson⟩

/-! ## Step lemmas for the retry loop -/

/-- A successful attempt returns its content at once. -/
theorem spcAux_ok {outcomes : Nat → AttemptResult} {attempt : Nat} {c : String}
    (retries delay remaining : Nat) (h : outcomes attempt = .ok c) :
    spcAux outcomes retries delay attempt (remaining + 1) = (.ok c, []) := by
  simp [spcAux, h]

/-- A rate-limit failure with attempts remaining sleeps
`delay * 2 ^ attempt` and retries. -/
theorem spcAux_rate_limit_retry {outcomes : Nat → AttemptResult}
    {attempt : Nat} {msg : String} (retries delay remaining : Nat)
    (h : outcomes attempt = .err msg) (hrl : isRateLimitError msg = true)
    (hlt : attempt < retries - 1) :
    spcAux outcomes retries delay attempt (remaining + 1) =
      ((spcAux outcomes retries delay (attempt + 1) remaining).1,
        delay * 2 ^ attempt :: (spcAux outcomes retries delay (attempt + 1) remaining).2) := by
  simp [spcAux, h, hrl, hlt]

/-- A rate-limit failure on the final attempt raises the 429. -/
theorem spcAux_rate_limit_last {outcomes : Nat → AttemptResult}
    {attempt : Nat} {msg : String} (retries delay remaining : Nat)
    (h : outcomes attempt = .err msg) (hrl : isRateLimitError msg = true)
    (hge : ¬ attempt < retries - 1) :
    spcAux outcomes retries delay attempt (remaining + 1) =
      (.error ⟨429, rateLimitDetail⟩, []) := by
  simp [spcAux, h, hrl, hge]

/-- A non-rate-limit failure on the final attempt raises the 500. -/
theorem spcAux_other_last {outcomes : Nat → AttemptResult}
    {attempt : Nat} {msg : String} (retries delay remaining : Nat)
    (h : outcomes attempt = .err msg) (hnrl : isRateLimitError msg = false)
    (heq : attempt = retries - 1) :
    spcAux outcomes retries delay attempt (remaining + 1) =
      (.error ⟨500, unavailableDetail⟩, []) := by
  subst heq
  simp [spcAux, h, hnrl]

/-- A non-rate-limit failure on a non-final attempt neither raises nor
sleeps: the loop proceeds directly to the next attempt. -/
theorem spcAux_other_cont {outcomes : Nat → AttemptResult}
    {attempt : Nat} {msg : String} (retries delay remaining : Nat)
    (h : outcomes attempt = .err msg) (hnrl : isRateLimitError msg = false)
    (hne : attempt ≠ retries - 1) :
    spcAux outcomes retries delay attempt (remaining + 1) =
      spcAux outcomes retries delay (attempt + 1) remaining := by
  simp [spcAux, h, hnrl, hne]

/-! ## C3 -/

/-- C3: with `retries = 3`, `delay = 2`, when attempts 0 and 1 fail with a
rate-limit error and attempt 2 succeeds, `safe_perplexity_call` sleeps
`2 * 2^0 = 2` seconds after the first failure and `2 * 2^1 = 4` seconds
after the second, and returns the content of the first completion choice
of the successful attempt. -/
theorem safe_perplexity_call_backoff_then_success
    (outcomes : Nat → AttemptResult) (m0 m1 c : String)
    (h0 : outcomes 0 = .err m0) (hr0 : isRateLimitError m0 = true)
    (h1 : outcomes 1 = .err m1) (hr1 : isRateLimitError m1 = true)
    (h2 : outcomes 2 = .ok c) :
    safe_perplexity_call outcomes 3 2 = (.ok c, [2, 4]) := by
  show spcAux outcomes 3 2 0 (2 + 1) = (.ok c, [2, 4])
  rw [spcAux_rate_limit_retry 3 2 2 h0 hr0 (by omega)]
  rw [spcAux_rate_limit_retry 3 2 1 h1 hr1 (by omega)]
  rw [spcAux_ok 3 2 0 h2]
  norm_num

/-- Witness for C3: two concrete rate-limited attempts then success. -/
theorem safe_perplexity_call_backoff_then_success_witness :
    safe_perplexity_call
      (fun i => if i < 2 then .err "429 Too Many Requests" else .ok "answer")
      3 2 = (.ok "answer", [2, 4]) :=
  safe_perplexity_call_backoff_then_success _ _ _ _ rfl rfl rfl rfl rfl

/-! ## C4 -/

/-- Exhausting the loop on persistent rate-limit errors yields the 429. -/
theorem spcAux_all_rate_limited (outcomes : Nat → AttemptResult)
    (retries delay : Nat) :
    ∀ remaining attempt, attempt + remaining = retries → 1 ≤ remaining →
      (∀ i, attempt ≤ i → i < retries → isRateLimitedAttempt (outcomes i) = true) →
      (spcAux outcomes retries delay attempt remaining).1 =
        .error ⟨429, rateLimitDetail⟩ := by
  intro remaining
  induction remaining with
  | zero => intro attempt _ h1; omega
  | succ rem ih =>
      intro attempt hsum _ hall
      have hcur : isRateLimitedAttempt (outcomes attempt) = true :=
        hall attempt le_rfl (by omega)
      cases hout : outcomes attempt with
      | ok c => rw [hout] at hcur; simp [isRateLimitedAttempt] at hcur
      | err msg =>
          rw [hout] at hcur
          have hrl : isRateLimitError msg = true := hcur
          by_cases hlt : attempt < retries - 1
          · rw [spcAux_rate_limit_retry retries delay rem hout hrl hlt]
            exact ih (attempt + 1) (by omega) (by omega)
              (fun i hi hi2 => hall i (by omega) hi2)
          · rw [spcAux_rate_limit_last retries delay rem hout hrl hlt]

/-- C4: when every one of the `retries` attempts fails with a rate-limit
error, `safe_perplexity_call` raises the 429 "API rate limit exceeded"
`HTTPException` — not the 500 ServiceUnavailable one. -/
theorem safe_perplexity_call_exhausted_rate_limited
    (outcomes : Nat → AttemptResult) (retries delay : Nat)
    (hret : 1 ≤ retries)
    (hall : ∀ i, i < retries → isRateLimitedAttempt (outcomes i) = true) :
    (safe_perplexity_call outcomes retries delay).1 =
      .error ⟨429, rateLimitDetail⟩ :=
  spcAux_all_rate_limited outcomes retries delay retries 0 (by omega) hret
    (fun i _ hi2 => hall i hi2)

/-- Witness for C4: three persistently rate-limited attempts. -/
theorem safe_perplexity_call_exhausted_rate_limited_witness :
    (safe_perplexity_call (fun _ => .err "rate limit hit") 3 2).1 =
      .error ⟨429, rateLimitDetail⟩ :=
  safe_perplexity_call_exhausted_rate_limited _ 3 2 (by omega) (fun _ _ => rfl)

/-! ## C5 -/

/-- C5: an attempt that fails with a non-rate-limit error raises the 500
ServiceUnavailable `HTTPException` when it is the final attempt
(`attempt = retries - 1`); on a non-final attempt the loop neither raises
nor sleeps, proceeding directly to the next attempt (the whole result,
including the list of sleeps performed, is that of the remaining loop).
`attempt + (remaining + 1) = retries` states that the loop is at zero-based
index `attempt` of a `safe_perplexity_call` run with `retries` attempts. -/
theorem safe_perplexity_call_other_error
    (outcomes : Nat → AttemptResult) (retries delay attempt remaining : Nat)
    (msg : String)
    (hout : outcomes attempt = .err msg) (hnrl : isRateLimitError msg = false)
    (hsum : attempt + (remaining + 1) = retries) :
    (attempt = retries - 1 →
      spcAux outcomes retries delay attempt (remaining + 1) =
        (.error ⟨500, unavailableDetail⟩, [])) ∧
    (attempt < retries - 1 →
      spcAux outcomes retries delay attempt (remaining + 1) =
        spcAux outcomes retries delay (attempt + 1) remaining) := by
  constructor
  · intro heq; exact spcAux_other_last retries delay remaining hout hnrl heq
  · intro hlt; exact spcAux_other_cont retries delay remaining hout hnrl (by omega)

/-- Witness for C5: a non-final non-rate-limit failure falls through to the
next attempt, and a final one raises the 500. -/
theorem safe_perplexity_call_other_error_witness :
    (spcAux (fun i => if i = 0 then .err "boom" else .ok "done") 3 2 0 3 =
      spcAux (fun i => if i = 0 then .err "boom" else .ok "done") 3 2 1 2) ∧
    spcAux (fun _ => .err "boom") 3 2 2 1 =
      (.error ⟨500, unavailableDetail⟩, []) :=
  ⟨(safe_perplexity_call_other_error _ 3 2 0 2 "boom" rfl rfl rfl).2 (by omega),
   (safe_perplexity_call_other_error (fun _ => .err "boom") 3 2 2 0 "boom"
      rfl rfl rfl).1 rfl⟩

/-! ## C10 -/

/-- C10: an absent, empty, or whitespace-only chat query short-circuits to
`{"reply": ""}`; the result is the same for every possible outcome of the
external call — `safe_perplexity_call` is never invoked. -/
theorem chat_blank_query_short_circuits
    (query : Option String) (h : pyStrip (query.getD "") = "") :
    ∀ callOutcome, chat query callOutcome = .ok "" := by
  intro callOutcome
  simp [chat, h]

/-- Witness for C10: an absent query and a whitespace-only query, under
both a successful and a failing call outcome. -/
theorem chat_blank_query_short_circuits_witness :
    chat none (.ok "hello") = .ok "" ∧
    chat (some " \t ") (.error ⟨500, "x"⟩) = .ok "" :=
  ⟨chat_blank_query_short_circuits none rfl _,
   chat_blank_query_short_circuits (some " \t ") rfl _⟩

/-! ## C7 -/

/-- C7: whenever `chat_endpoint` reaches the all-slots-filled branch, the
returned response is exactly the fixed apology string and the user's state
entry is deleted — for every outcome of the underlying synchronous call.
`await safe_perplexity_call(prompt)` awaits a plain `str`, so even a
successful call raises in the `try` block and the AI text never reaches
the user. -/
theorem chat_endpoint_all_filled_always_apologizes
    (cs : ChatState) (ci : ChatInput) (call : PyOutcome String)
    (hfull : firstUnanswered
      (applyUpdates ci ((cs (effectiveUserId ci)).getD [])) = none) :
    chat_endpoint cs ci call = (delUser cs (effectiveUserId ci), apologyText) := by
  cases call <;> simp [chat_endpoint, hfull, awaitSyncCall]

/-- A state in which user `"u"` has already answered every slot. -/
def fullSlots : Slots :=
  [ ("day", "d"), ("location", "l"), ("date", "t"), ("travel_style", "s")
  , ("budget", "b"), ("accommodation", "a"), ("activities", "c")
  , ("transportation", "r"), ("dining", "i"), ("special_requests", "q") ]

/-- A `chat_state` holding only user `"u"` with all slots filled. -/
def demoState : ChatState := fun x => if x = "u" then some fullSlots else none

/-- A submission from user `"u"` supplying no new slot values. -/
def demoEmptyInput : ChatInput :=
  ⟨some "u", none, none, none, none, none, none, none, none, none, none, none⟩

/-- Witness for C7: with every slot already answered, even a successful
call outcome yields the apology and deletes the state entry. -/
theorem chat_endpoint_all_filled_always_apologizes_witness :
    chat_endpoint demoState demoEmptyInput (.ok "Here is your itinerary") =
      (delUser demoState "u", apologyText) :=
  chat_endpoint_all_filled_always_apologizes demoState demoEmptyInput
    (.ok "Here is your itinerary") rfl

/-! ## C6 -/

/-- A `/chat` submission from `uid` supplying exactly the slot named `key`
(with value `v`) and nothing else. -/
def inputSupplying (uid key v : String) : ChatInput :=
  { user_id := some uid
  , day := if key = "day" then some v else none
  , location := if key = "location" then some v else none
  , date := if key = "date" then some v else none
  , travel_style := if key = "travel_style" then some v else none
  , budget := if key = "budget" then some v else none
  , accommodation := if key = "accommodation" then some v else none
  , activities := if key = "activities" then some v else none
  , transportation := if key = "transportation" then some v else none
  , dining := if key = "dining" then some v else none
  , special_requests := if key = "special_requests" then some v else none
  , query := none }

/-- Run a sequence of `/chat` submissions, collecting the responses. -/
def runConversation : ChatState → List (ChatInput × PyOutcome String) →
    ChatState × List String
  | cs, [] => (cs, [])
  | cs, p :: rest =>
      ((runConversation (chat_endpoint cs p.1 p.2).1 rest).1,
        (chat_endpoint cs p.1 p.2).2 :: (runConversation (chat_endpoint cs p.1 p.2).1 rest).2)

/-- Writing a user's entry makes it visible. -/
theorem setUser_same (cs : ChatState) (u : String) (s : Slots) :
    (setUser cs u s) u = some s := by
  simp [setUser]

/-- Consecutive writes to the same user collapse. -/
theorem setUser_setUser (cs : ChatState) (u : String) (a b : Slots) :
    setUser (setUser cs u a) u b = setUser cs u b := by
  funext x
  simp only [setUser]
  split <;> rfl

/-- Deleting a user discards a pending write to that user. -/
theorem delUser_setUser (cs : ChatState) (u : String) (a : Slots) :
    delUser (setUser cs u a) u = delUser cs u := by
  funext x
  simp only [delUser, setUser]
  split <;> rfl

/-- Deleting an absent user changes nothing. -/
theorem delUser_fresh {cs : ChatState} {u : String} (h : cs u = none) :
    delUser cs u = cs := by
  funext x
  simp only [delUser]
  split
  · next heq => rw [heq, h]
  · rfl

/-- C6: for a fresh user id, ten sequential submissions each supplying
exactly the next slot in the fixed order yield, on each of the first nine
calls, the question of the first still-unfilled slot; the tenth call
returns the final response (here always the apology, cf. C7) and deletes
the user's state entry, so a subsequent submission restarts from the
first question. -/
theorem chat_conversation_ten_steps
    (cs : ChatState) (uid : String) (v : Nat → String) (call : PyOutcome String)
    (huid : uid ≠ "") (hfresh : cs uid = none) :
    (runConversation cs
      [ (inputSupplying uid "day" (v 0), call)
      , (inputSupplying uid "location" (v 1), call)
      , (inputSupplying uid "date" (v 2), call)
      , (inputSupplying uid "travel_style" (v 3), call)
      , (inputSupplying uid "budget" (v 4), call)
      , (inputSupplying uid "accommodation" (v 5), call)
      , (inputSupplying uid "activities" (v 6), call)
      , (inputSupplying uid "transportation" (v 7), call)
      , (inputSupplying uid "dining" (v 8), call)
      , (inputSupplying uid "special_requests" (v 9), call) ]).2 =
      [ "Which city/country/region do you want to visit?"
      , "What are your preferred travel dates?"
      , "Are you looking for luxury, mid-range, or budget travel?"
      , "Approximate budget per person (including accommodation, food, transport, activities)?"
      , "Do you prefer hotels, hostels, resorts, or homestays?"
      , "What kind of experiences are you interested in? (nature, adventure, cultural experiences, shopping, nightlife)"
      , "How do you prefer to travel locally? (rental car, public transport, walking, bike)"
      , "Do you have any dietary restrictions or food interests?"
      , "Any special requests, accessibility needs, or events you want included?"
      , apologyText ] ∧
    (runConversation cs
      [ (inputSupplying uid "day" (v 0), call)
      , (inputSupplying uid "location" (v 1), call)
      , (inputSupplying uid "date" (v 2), call)
      , (inputSupplying uid "travel_style" (v 3), call)
      , (inputSupplying uid "budget" (v 4), call)
      , (inputSupplying uid "accommodation" (v 5), call)
      , (inputSupplying uid "activities" (v 6), call)
      , (inputSupplying uid "transportation" (v 7), call)
      , (inputSupplying uid "dining" (v 8), call)
      , (inputSupplying uid "special_requests" (v 9), call) ]).1 uid = none ∧
    (chat_endpoint
      (runConversation cs
        [ (inputSupplying uid "day" (v 0), call)
        , (inputSupplying uid "location" (v 1), call)
        , (inputSupplying uid "date" (v 2), call)
        , (inputSupplying uid "travel_style" (v 3), call)
        , (inputSupplying uid "budget" (v 4), call)
        , (inputSupplying uid "accommodation" (v 5), call)
        , (inputSupplying uid "activities" (v 6), call)
        , (inputSupplying uid "transportation" (v 7), call)
        , (inputSupplying uid "dining" (v 8), call)
        , (inputSupplying uid "special_requests" (v 9), call) ]).1
      (inputSupplying uid "" "") call).2 =
      "Which day are you planning your tour?" := by
  have e1 : chat_endpoint (cs)
      (inputSupplying uid "day" (v 0)) call =
      (setUser cs uid [("day", v 0)],
        "Which city/country/region do you want to visit?") := by
    simp [chat_endpoint, effectiveUserId, huid, hfresh, applyUpdates,
      CONVERSATION_QUESTIONS, getSlot, inputSupplying, slotsSet, slotsGet,
      firstUnanswered, List.find?, setUser_same, setUser_setUser]
  have e2 : chat_endpoint (setUser cs uid [("day", v 0)])
      (inputSupplying uid "location" (v 1)) call =
      (setUser cs uid [("day", v 0), ("location", v 1)],
        "What are your preferred travel dates?") := by
    simp [chat_endpoint, effectiveUserId, huid, hfresh, applyUpdates,
      CONVERSATION_QUESTIONS, getSlot, inputSupplying, slotsSet, slotsGet,
      firstUnanswered, List.find?, setUser_same, setUser_setUser]
  have e3 : chat_endpoint (setUser cs uid [("day", v 0), ("location", v 1)])
      (inputSupplying uid "date" (v 2)) call =
      (setUser cs uid [("day", v 0), ("location", v 1), ("date", v 2)],
        "Are you looking for luxury, mid-range, or budget travel?") := by
    simp [chat_endpoint, effectiveUserId, huid, hfresh, applyUpdates,
      CONVERSATION_QUESTIONS, getSlot, inputSupplying, slotsSet, slotsGet,
      firstUnanswered, List.find?, setUser_same, setUser_setUser]
  have e4 : chat_endpoint (setUser cs uid [("day", v 0), ("location", v 1), ("date", v 2)])
      (inputSupplying uid "travel_style" (v 3)) call =
      (setUser cs uid [("day", v 0), ("location", v 1), ("date", v 2), ("travel_style", v 3)],
        "Approximate budget per person (including accommodation, food, transport, activities)?") := by
    simp [chat_endpoint, effectiveUserId, huid, hfresh, applyUpdates,
      CONVERSATION_QUESTIONS, getSlot, inputSupplying, slotsSet, slotsGet,
      firstUnanswered, List.find?, setUser_same, setUser_setUser]
  have e5 : chat_endpoint (setUser cs uid [("day", v 0), ("location", v 1), ("date", v 2), ("travel_style", v 3)])
      (inputSupplying uid "budget" (v 4)) call =
      (setUser cs uid [("day", v 0), ("location", v 1), ("date", v 2), ("travel_style", v 3), ("budget", v 4)],
        "Do you prefer hotels, hostels, resorts, or homestays?") := by
    simp [chat_endpoint, effectiveUserId, huid, hfresh, applyUpdates,
      CONVERSATION_QUESTIONS, getSlot, inputSupplying, slotsSet, slotsGet,
      firstUnanswered, List.find?, setUser_same, setUser_setUser]
  have e6 : chat_endpoint (setUser cs uid [("day", v 0), ("location", v 1), ("date", v 2), ("travel_style", v 3), ("budget", v 4)])
      (inputSupplying uid "accommodation" (v 5)) call =
      (setUser cs uid [("day", v 0), ("location", v 1), ("date", v 2), ("travel_style", v 3), ("budget", v 4), ("accommodation", v 5)],
        "What kind of experiences are you interested in? (nature, adventure, cultural experiences, shopping, nightlife)") := by
    simp [chat_endpoint, effectiveUserId, huid, hfresh, applyUpdates,
      CONVERSATION_QUESTIONS, getSlot, inputSupplying, slotsSet, slotsGet,
      firstUnanswered, List.find?, setUser_same, setUser_setUser]
  have e7 : chat_endpoint (setUser cs uid [("day", v 0), ("location", v 1), ("date", v 2), ("travel_style", v 3), ("budget", v 4), ("accommodation", v 5)])
      (inputSupplying uid "activities" (v 6)) call =
      (setUser cs uid [("day", v 0), ("location", v 1), ("date", v 2), ("travel_style", v 3), ("budget", v 4), ("accommodation", v 5), ("activities", v 6)],
        "How do you prefer to travel locally? (rental car, public transport, walking, bike)") := by
    simp [chat_endpoint, effectiveUserId, huid, hfresh, applyUpdates,
      CONVERSATION_QUESTIONS, getSlot, inputSupplying, slotsSet, slotsGet,
      firstUnanswered, List.find?, setUser_same, setUser_setUser]
  have e8 : chat_endpoint (setUser cs uid [("day", v 0), ("location", v 1), ("date", v 2), ("travel_style", v 3), ("budget", v 4), ("accommodation", v 5), ("activities", v 6)])
      (inputSupplying uid "transportation" (v 7)) call =
      (setUser cs uid [("day", v 0), ("location", v 1), ("date", v 2), ("travel_style", v 3), ("budget", v 4), ("accommodation", v 5), ("activities", v 6), ("transportation", v 7)],
        "Do you have any dietary restrictions or food interests?") := by
    simp [chat_endpoint, effectiveUserId, huid, hfresh, applyUpdates,
      CONVERSATION_QUESTIONS, getSlot, inputSupplying, slotsSet, slotsGet,
      firstUnanswered, List.find?, setUser_same, setUser_setUser]
  have e9 : chat_endpoint (setUser cs uid [("day", v 0), ("location", v 1), ("date", v 2), ("travel_style", v 3), ("budget", v 4), ("accommodation", v 5), ("activities", v 6), ("transportation", v 7)])
      (inputSupplying uid "dining" (v 8)) call =
      (setUser cs uid [("day", v 0), ("location", v 1), ("date", v 2), ("travel_style", v 3), ("budget", v 4), ("accommodation", v 5), ("activities", v 6), ("transportation", v 7), ("dining", v 8)],
        "Any special requests, accessibility needs, or events you want included?") := by
    simp [chat_endpoint, effectiveUserId, huid, hfresh, applyUpdates,
      CONVERSATION_QUESTIONS, getSlot, inputSupplying, slotsSet, slotsGet,
      firstUnanswered, List.find?, setUser_same, setUser_setUser]
  have e10 : chat_endpoint (setUser cs uid [("day", v 0), ("location", v 1), ("date", v 2), ("travel_style", v 3), ("budget", v 4), ("accommodation", v 5), ("activities", v 6), ("transportation", v 7), ("dining", v 8)])
      (inputSupplying uid "special_requests" (v 9)) call = (cs, apologyText) := by
    cases call <;>
      simp [chat_endpoint, effectiveUserId, huid, hfresh, applyUpdates,
      CONVERSATION_QUESTIONS, getSlot, inputSupplying, slotsSet, slotsGet,
      firstUnanswered, List.find?, setUser_same, setUser_setUser, awaitSyncCall,
        delUser_setUser, delUser_fresh hfresh]
  have e11 : (chat_endpoint cs (inputSupplying uid "" "") call).2 =
      "Which day are you planning your tour?" := by
    simp [chat_endpoint, effectiveUserId, huid, hfresh, applyUpdates,
      CONVERSATION_QUESTIONS, getSlot, inputSupplying, slotsSet, slotsGet,
      firstUnanswered, List.find?, setUser_same, setUser_setUser, hfresh]
  refine ⟨?_, ?_, ?_⟩
  · simp only [runConversation, e1, e2, e3, e4, e5, e6, e7, e8, e9, e10]
  · simp only [runConversation, e1, e2, e3, e4, e5, e6, e7, e8, e9, e10]
    exact hfresh
  · simp only [runConversation, e1, e2, e3, e4, e5, e6, e7, e8, e9, e10, e11]

/-- Witness for C6: a concrete fresh user and concrete answers. -/
theorem chat_conversation_ten_steps_witness :
    (runConversation (fun _ => none)
      [ (inputSupplying "alice" "day" "x", .ok "AI")
      , (inputSupplying "alice" "location" "x", .ok "AI")
      , (inputSupplying "alice" "date" "x", .ok "AI")
      , (inputSupplying "alice" "travel_style" "x", .ok "AI")
      , (inputSupplying "alice" "budget" "x", .ok "AI")
      , (inputSupplying "alice" "accommodation" "x", .ok "AI")
      , (inputSupplying "alice" "activities" "x", .ok "AI")
      , (inputSupplying "alice" "transportation" "x", .ok "AI")
      , (inputSupplying "alice" "dining" "x", .ok "AI")
      , (inputSupplying "alice" "special_requests" "x", .ok "AI") ]).2 =
      [ "Which city/country/region do you want to visit?"
      , "What are your preferred travel dates?"
      , "Are you looking for luxury, mid-range, or budget travel?"
      , "Approximate budget per person (including accommodation, food, transport, activities)?"
      , "Do you prefer hotels, hostels, resorts, or homestays?"
      , "What kind of experiences are you interested in? (nature, adventure, cultural experiences, shopping, nightlife)"
      , "How do you prefer to travel locally? (rental car, public transport, walking, bike)"
      , "Do you have any dietary restrictions or food interests?"
      , "Any special requests, accessibility needs, or events you want included?"
      , apologyText ] :=
  (chat_conversation_ten_steps (fun _ => none) "alice"
    (fun _ => "x") (.ok "AI") (by decide) rfl).1

end Journey
